import Mathlib

/-!
Shallow embedding of the container entry orchestrator of
`src/cmd/enter.go` (functions `enter` and `enterContainer`).

External collaborators (the podman engine, the filesystem, the prompt,
the subprocess runner, …) are modelled as oracle fields of an
environment record; the control flow of `enterContainer` itself is
translated statement by statement.  Observable side effects that the
claims talk about (container-creation calls, prompting, substitution
diagnostics, one-second sleeps, the assembled exec argument vector) are
recorded in a trace.
-/

namespace ToolboxEnter

/-- The typed errors `enterContainer` can return, one constructor per
`return err` site in `src/cmd/enter.go`.  Errors produced by external
collaborators and merely forwarded (`createContainer`,
`callFlatpakSessionHelper`, `startContainer`, `getEntryPointAndPID`,
`utils.GetRuntimeDirectory`) are modelled as opaque tags. -/
inductive EnterError where
  /-- Error from `utils.CreateErrorContainerNotFound` (pedantic mode, line 180, and
  enumeration failure, line 186). -/
  | containerNotFound (container : String)
  /-- the hand-built "Use the --container option" message
  (lines 224-230). -/
  | containerNotFoundDisambiguate (container : String)
  /-- error forwarded from `createContainer` (line 213). -/
  | createContainerFailed
  /-- error forwarded from `callFlatpakSessionHelper` (line 234). -/
  | flatpakSessionHelperFailed
  /-- error forwarded from `startContainer` (line 239). -/
  | startContainerFailed
  /-- error forwarded from `getEntryPointAndPID` (line 243). -/
  | getEntryPointFailed
  /-- Message "container … is too old and no longer supported" (lines 248-255). -/
  | containerTooOld (container : String)
  /-- Message "invalid entry point PID of container …" (line 258). -/
  | invalidEntryPointPID (container : String)
  /-- error forwarded from `utils.GetRuntimeDirectory` (line 263). -/
  | getRuntimeDirectoryFailed
  /-- Message "failed to initialize container …" (line 275). -/
  | initializationTimeout (container : String)
  /-- Message "command … not found in container …" with fallback disabled
  (line 293). -/
  | commandNotFound (command container : String)
  /-- exit code 125: "failed to invoke \x27podman exec\x27 …" (line 354). -/
  | engineInvocationFailed (container : String)
  /-- exit code 126: "failed to invoke command …" (line 356). -/
  | commandInvocationFailed (command container : String)
  /-- exit code 127, working directory absent: "directory … not found in
  container …" (line 359). -/
  | workDirNotFound (dir container : String)
  /-- exit code 127, working directory present: "command … not found in
  container …" (line 361). -/
  | execCommandNotFound (command container : String)
  deriving Repr, DecidableEq

/-- Result of one entry attempt: `ok` is a `nil` return, `err` a non-nil
error return, `panicked` a Go `panic`. -/
inductive EnterResult where
  | ok
  | err (e : EnterError)
  | panicked (msg : String)
  deriving Repr, DecidableEq

/-- Oracle environment: the behaviour of every external collaborator
`enterContainer` consults, in the order the code consults them. -/
structure Env where
  /-- Whether `podman.ContainerExists(container)` succeeds (line 176). -/
  requestedExists : Bool
  /-- Result of `listContainers()` (line 184): `none` models the error case. Each
  element is a container record reduced to `c.Names[0]`. -/
  listContainersResult : Option (List String)
  /-- Value of `rootFlags.assumeYes` (line 197). -/
  assumeYes : Bool
  /-- answer `utils.AskForConfirmation` would give (line 204). -/
  confirmCreate : Bool
  /-- Whether `createContainer(container, image, release, false)` succeeds
  (line 213). -/
  createSucceeds : Bool
  /-- Whether `callFlatpakSessionHelper(container)` succeeds (line 234). -/
  flatpakOk : Bool
  /-- Whether `startContainer(container)` succeeds (line 239). -/
  startOk : Bool
  /-- Result of `getEntryPointAndPID(container)` (line 243): `none` models the
  error case, otherwise the (entryPoint, entryPointPID) pair. -/
  entryPointResult : Option (String × Int)
  /-- Result of `utils.GetRuntimeDirectory(currentUser)` (line 263): `none` models
  the error case. -/
  runtimeDir : Option String
  /-- Result of `utils.PathExists(path)` at the i-th check of the polling loop
  (line 273): the filesystem may change between one-second polls. -/
  pathExists : Nat → String → Bool
  /-- Whether `isCommandPresent(container, command[0])` succeeds (line 283). -/
  commandPresentIn : String → String → Bool
  /-- Result of `podman.CheckVersion(version)` (line 301). -/
  checkVersion : String → Bool
  /-- Result of `utils.GetEnvOptionsForPreservedVariables()` (line 306). -/
  envOptions : List String
  /-- Value of `podman.LogLevel.String()` (line 307). -/
  logLevel : String
  /-- Value of `currentUser.Username` (line 319). -/
  username : String
  /-- Value of `workingDirectory` (line 320). -/
  workingDirectory : String
  /-- exit code returned by `shell.RunWithExitCode` (line 342). -/
  execExitCode : Nat
  /-- whether `shell.RunWithExitCode` also returned a non-nil error
  (line 342). -/
  execErr : Bool
  /-- Result of `isPathPresent(container, workingDirectory)` after exit code 127
  (line 358); the probe error is discarded by the code. -/
  workDirPresent : Bool

/-- Trace of the observable side effects of one entry attempt. -/
structure Trace where
  /-- arguments of each `createContainer` call, in order (line 213). -/
  createCalls : List (String × String × String)
  /-- whether `utils.AskForConfirmation` was invoked (line 204). -/
  prompted : Bool
  /-- Holds `some c` iff the single-container substitution diagnostic
  (lines 217-222) was emitted, substituting container `c`. -/
  substitutedTo : Option String
  /-- whether the "A container can be created later …" message of the
  declined-creation branch was printed (lines 208-209). -/
  infoDeclineShown : Bool
  /-- number of `time.Sleep(time.Second)` calls performed (line 278). -/
  sleeps : Nat
  /-- the argument vector handed to `shell.RunWithExitCode "podman"`,
  when the attempt reached the exec call (line 342). -/
  execArgs : Option (List String)
  /-- the container that was actually entered, when the attempt reached
  the exec call. -/
  enteredContainer : Option String
  /-- whether the desktop-integration escape sequences were printed
  around the exec call (lines 332-334 and 344-346). -/
  escapeEmitted : Bool
  deriving Repr, DecidableEq

/-- The all-quiet trace: no create call, no prompt, no substitution, no
sleep, no exec. -/
def Trace.initial : Trace :=
  { createCalls := []
    prompted := false
    substitutedTo := none
    infoDeclineShown := false
    sleeps := 0
    execArgs := none
    enteredContainer := none
    escapeEmitted := false }

/-- The polling loop of lines 272-279: check `stampAt i`; on success
return the number of sleeps performed so far (= `i`); otherwise, if
`remaining` polls are left, sleep and retry with `i+1`, else give up.
`pollFrom stampAt (timeout - i) i` mirrors the Go loop with counter
`i`, guard `!utils.PathExists(initializedStamp)` and timeout test
`i == initializedTimeout`. -/
def pollFrom (stampAt : Nat → Bool) : Nat → Nat → Option Nat
  | remaining, i =>
    if stampAt i then some i
    else
      match remaining with
      | 0 => none
      | r + 1 => pollFrom stampAt r (i + 1)

/-- The exec argument vector builder of lines 297-330, translated append
by append from the Go code. -/
def buildExecArgs (container : String) (command : List String)
    (logLevel : String) (supportsDetachKeys : Bool)
    (username workingDirectory : String) (envOptions : List String) :
    List String :=
  let detachKeys := if supportsDetachKeys then ["--detach-keys", ""] else []
  let execArgs := ["--log-level", logLevel, "exec"]
  let execArgs := execArgs ++ detachKeys
  let execArgs := execArgs ++
    ["--interactive", "--tty", "--user", username,
     "--workdir", workingDirectory]
  let execArgs := execArgs ++ envOptions
  let execArgs := execArgs ++
    [container, "capsh", "--caps=", "--", "-c", "exec \"$@\"", "/bin/sh"]
  execArgs ++ command

/-- The exit code switch of lines 348-365.  `execErr` is the error value
returned alongside the exit code by `shell.RunWithExitCode`; for any
exit code other than 0, 125, 126 and 127 the `default` branch sets
`err = nil`, so the attempt returns `nil`. -/
def classifyExitCode (exitCode : Nat) (execErr : Bool)
    (container command0 workingDirectory : String)
    (workDirPresent : Bool) : EnterResult :=
  if exitCode == 0 then
    if execErr then
      .panicked "unexpected error: \x27podman exec\x27 finished successfully"
    else .ok
  else if exitCode == 125 then .err (.engineInvocationFailed container)
  else if exitCode == 126 then
    .err (.commandInvocationFailed command0 container)
  else if exitCode == 127 then
    if !workDirPresent then
      .err (.workDirNotFound workingDirectory container)
    else .err (.execCommandNotFound command0 container)
  else .ok

/-- Lines 283-371: everything after the initialization stamp was
observed — command presence check with optional `/bin/bash` fallback,
exec argument assembly, the wrapped `podman exec` run and the exit code
switch. -/
def afterInit (container : String) (command : List String)
    (emitEscapeSequence fallbackToBash : Bool) (env : Env) (t : Trace) :
    EnterResult × Trace :=
  if env.commandPresentIn container (command.headD "") then
    let args := buildExecArgs container command env.logLevel
      (env.checkVersion "1.8.1") env.username env.workingDirectory
      env.envOptions
    let t := { t with execArgs := some args,
                      enteredContainer := some container,
                      escapeEmitted := emitEscapeSequence }
    (classifyExitCode env.execExitCode env.execErr container
      (command.headD "") env.workingDirectory env.workDirPresent, t)
  else if fallbackToBash then
    let command := ["/bin/bash", "-l"]
    let args := buildExecArgs container command env.logLevel
      (env.checkVersion "1.8.1") env.username env.workingDirectory
      env.envOptions
    let t := { t with execArgs := some args,
                      enteredContainer := some container,
                      escapeEmitted := emitEscapeSequence }
    (classifyExitCode env.execExitCode env.execErr container
      (command.headD "") env.workingDirectory env.workDirPresent, t)
  else
    (.err (.commandNotFound (command.headD "") container), t)

/-- Lines 234-371: everything after the existence / fallback policy has
settled on a container — flatpak session helper, container start, entry
point validation, readiness polling, then `afterInit`. -/
def postExistence (container : String) (command : List String)
    (emitEscapeSequence fallbackToBash : Bool) (env : Env) (t : Trace) :
    EnterResult × Trace :=
  if !env.flatpakOk then (.err .flatpakSessionHelperFailed, t)
  else if !env.startOk then (.err .startContainerFailed, t)
  else
    match env.entryPointResult with
    | none => (.err .getEntryPointFailed, t)
    | some (entryPoint, entryPointPID) =>
      if entryPoint != "toolbox" then (.err (.containerTooOld container), t)
      else if entryPointPID ≤ 0 then
        (.err (.invalidEntryPointPID container), t)
      else
        match env.runtimeDir with
        | none => (.err .getRuntimeDirectoryFailed, t)
        | some dir =>
          let initializedStamp :=
            dir ++ "/container-initialized-" ++ toString entryPointPID
          match pollFrom (fun i => env.pathExists i initializedStamp) 25 0 with
          | none =>
            (.err (.initializationTimeout container), { t with sleeps := 25 })
          | some k =>
            afterInit container command emitEscapeSequence fallbackToBash
              env { t with sleeps := k }

/-- The existence / fallback policy of lines 164-232, returning either a
terminal result or the container to proceed with. -/
def existencePhase (container : String) (defaultContainer : Bool)
    (image release : String) (pedantic : Bool) (env : Env) :
    (EnterResult × Trace) ⊕ (String × Trace) :=
  if env.requestedExists then .inr (container, Trace.initial)
  else if pedantic then
    .inl (.err (.containerNotFound container), Trace.initial)
  else
    match env.listContainersResult with
    | none => .inl (.err (.containerNotFound container), Trace.initial)
    | some containers =>
      if containers.length == 0 then
        let prompted := !env.assumeYes
        let shouldCreateContainer :=
          if env.assumeYes then true else env.confirmCreate
        if !shouldCreateContainer then
          .inl (.ok, { Trace.initial with prompted := prompted,
                                          infoDeclineShown := true })
        else
          let t := { Trace.initial with
                       prompted := prompted,
                       createCalls := [(container, image, release)] }
          if env.createSucceeds then .inr (container, t)
          else .inl (.err .createContainerFailed, t)
      else if containers.length == 1 && defaultContainer then
        let container := containers.headD ""
        .inr (container,
          { Trace.initial with substitutedTo := some container })
      else
        .inl (.err (.containerNotFoundDisambiguate container), Trace.initial)

/-- Function `enterContainer` of `src/cmd/enter.go`, lines 158-372. -/
def enterContainer (container : String) (defaultContainer : Bool)
    (image release : String) (command : List String)
    (emitEscapeSequence fallbackToBash pedantic : Bool) (env : Env) :
    EnterResult × Trace :=
  if !pedantic && image == "" then
    (.panicked "image not specified", Trace.initial)
  else if !pedantic && release == "" then
    (.panicked "release not specified", Trace.initial)
  else
    match existencePhase container defaultContainer image release
        pedantic env with
    | .inl r => r
    | .inr (container, t) =>
      postExistence container command emitEscapeSequence fallbackToBash
        env t

/-- Result of the `enter` command function (lines 65-156), one
constructor per `return` site before `enterContainer` is reached, plus
`fromEnter` wrapping the result of the `enterContainer` call. -/
inductive EnterCmdResult where
  /-- Message "this is not a toolbox container" (line 68). -/
  | notToolboxContainer
  /-- error forwarded from `utils.ForwardToHost` (line 71). -/
  | forwardFailed
  /-- the command was forwarded to the host (line 75). -/
  | forwarded
  /-- the invalid container name message of lines 94-100. -/
  | invalidName (msg : String)
  /-- Error from `utils.CreateErrorInvalidRelease` (line 111). -/
  | invalidRelease
  /-- error forwarded from `utils.ResolveContainerAndImageNames`
  (line 116). -/
  | resolveFailed
  /-- Message "failed to get the current user\x27s default shell" (line 123). -/
  | noShell
  /-- Message "failed to get the host ID" (line 130). -/
  | hostIDFailed
  /-- Message "failed to get the host VARIANT_ID" (line 135). -/
  | hostVariantIDFailed
  /-- result of the `enterContainer` call (line 144). -/
  | fromEnter (r : EnterResult)
  deriving Repr, DecidableEq

/-- Oracle environment for the collaborators consulted by `enter`
before it calls `enterContainer`. -/
structure CmdEnv where
  /-- Value of `utils.IsInsideContainer()` (line 66). -/
  insideContainer : Bool
  /-- Value of `utils.IsInsideToolboxContainer()` (line 67). -/
  insideToolboxContainer : Bool
  /-- Whether `utils.ForwardToHost()` succeeds (line 71). -/
  forwardOk : Bool
  /-- Whether `utils.IsContainerNameValid(container)` succeeds (line 93): the
  name matches the container naming grammar. -/
  isContainerNameValid : String → Bool
  /-- Value of `utils.ContainerNameRegexp` (line 96): the naming grammar quoted
  in the error message. -/
  containerNameRegexp : String
  /-- Value of `executableBase` (line 97). -/
  executableBase : String
  /-- Result of `utils.ParseRelease(release)` (line 109): `none` models the error
  case. -/
  parseRelease : String → Option String
  /-- Result of `utils.ResolveContainerAndImageNames(container, "", release)`
  (line 116): `none` models the error case, otherwise the resolved
  (container, image, release) triple. -/
  resolveNames : String → String → Option (String × String × String)
  /-- Value of `os.Getenv("SHELL")` (line 121). -/
  shellEnv : String
  /-- Result of `utils.GetHostID()` (line 128): `none` models the error case. -/
  hostID : Option String
  /-- Result of `utils.GetHostVariantID()` (line 133): `none` models the error
  case. -/
  hostVariantID : Option String
  /-- oracle environment for the nested `enterContainer` call. -/
  enterEnv : Env

/-- The invalid-container-name message built in lines 94-99. -/
def invalidNameMsg (containerArg regexp exe : String) : String :=
  "invalid argument for \x27" ++ containerArg ++ "\x27\n" ++
  "Container names must match \x27" ++ regexp ++ "\x27\n" ++
  "Run \x27" ++ exe ++ " --help\x27 for usage."

/-- Function `enter` of `src/cmd/enter.go`, lines 65-156.  `args` is the
positional argument list, `flagContainer` and `flagRelease` the values
of the `--container` and `--release` options (`""` when absent).  The
second component is the trace of the `enterContainer` call, `none` when
`enter` returned before making it (so no container engine call was
made). -/
def enterCmd (args : List String) (flagContainer flagRelease : String)
    (cenv : CmdEnv) : EnterCmdResult × Option Trace :=
  if cenv.insideContainer then
    if !cenv.insideToolboxContainer then (.notToolboxContainer, none)
    else if !cenv.forwardOk then (.forwardFailed, none)
    else (.forwarded, none)
  else
    let (container, containerArg) :=
      if args.length != 0 then (args.headD "", "CONTAINER")
      else if flagContainer != "" then (flagContainer, "--container")
      else ("", "")
    let nonDefaultContainer := container != ""
    if container != "" && !cenv.isContainerNameValid container then
      (.invalidName (invalidNameMsg containerArg cenv.containerNameRegexp
        cenv.executableBase), none)
    else
      let nonDefaultContainer :=
        nonDefaultContainer || flagRelease != ""
      let release? : Option String :=
        if flagRelease != "" then cenv.parseRelease flagRelease
        else some ""
      match release? with
      | none => (.invalidRelease, none)
      | some release =>
        match cenv.resolveNames container release with
        | none => (.resolveFailed, none)
        | some (container, image, release) =>
          if cenv.shellEnv == "" then (.noShell, none)
          else
            let command := [cenv.shellEnv, "-l"]
            match cenv.hostID with
            | none => (.hostIDFailed, none)
            | some hostID =>
              match cenv.hostVariantID with
              | none => (.hostVariantIDFailed, none)
              | some hostVariantID =>
                let emitEscapeSequence :=
                  hostID == "fedora" &&
                    (hostVariantID == "silverblue" ||
                      hostVariantID == "workstation")
                let (r, t) := enterContainer container
                  (!nonDefaultContainer) image release command
                  emitEscapeSequence true false cenv.enterEnv
                (.fromEnter r, some t)

/-- The exec argument vector as §4.5 of the spec lists it: global
log-level flag; the exec subcommand; the engine-version-gated
detach-keys-disabling flag; interactivity and TTY flags; the target
user; the working directory; the environment-preservation options; the
container identity; the capability-stripping wrapper ending in the
minimal shell indirection; the user command. -/
def execArgsSpec (container : String) (command : List String)
    (logLevel : String) (supportsDetachKeys : Bool)
    (username workingDirectory : String) (envOptions : List String) :
    List String :=
  ["--log-level", logLevel] ++
  ["exec"] ++
  (if supportsDetachKeys then ["--detach-keys", ""] else []) ++
  ["--interactive", "--tty"] ++
  ["--user", username] ++
  ["--workdir", workingDirectory] ++
  envOptions ++
  [container] ++
  ["capsh", "--caps=", "--", "-c", "exec \"$@\"", "/bin/sh"] ++
  command

/-- A fully-cooperative oracle environment: the requested container
exists, every collaborator succeeds, the readiness stamp is present at
the first check, and the wrapped `podman exec` exits 0. -/
def envHappy : Env :=
  { requestedExists := true
    listContainersResult := some []
    assumeYes := false
    confirmCreate := false
    createSucceeds := true
    flatpakOk := true
    startOk := true
    entryPointResult := some ("toolbox", 42)
    runtimeDir := some "/run/user/1000/toolbox"
    pathExists := fun _ _ => true
    commandPresentIn := fun _ _ => true
    checkVersion := fun _ => true
    envOptions := ["--env", "TERM=xterm-256color"]
    logLevel := "error"
    username := "alice"
    workingDirectory := "/home/alice"
    execExitCode := 0
    execErr := false
    workDirPresent := true }

/-- The concrete run used to refute claim C3: the wrapped `podman exec`
exits with code 1 and everything else cooperates. -/
def envExit1 : Env := { envHappy with execExitCode := 1 }

/-- Command environment for the claim C8 witness and counterexample:
the name-validity oracle rejects every name (in particular the empty
string, which the real regular expression also rejects) and every later
collaborator cooperates. -/
def cenvC8 : CmdEnv :=
  { insideContainer := false
    insideToolboxContainer := false
    forwardOk := true
    isContainerNameValid := fun _ => false
    containerNameRegexp := "[a-zA-Z0-9][a-zA-Z0-9_.-]*"
    executableBase := "toolbox"
    parseRelease := fun _ => none
    resolveNames := fun _ _ =>
      some ("fedora-toolbox-33", "fedora-toolbox:33", "33")
    shellEnv := "/bin/bash"
    hostID := some "fedora"
    hostVariantID := some "workstation"
    enterEnv := envHappy }

section PollLemmas

/-- If the stamp is absent at every check the loop can reach, the poll
gives up. -/
theorem pollFrom_eq_none (stampAt : Nat → Bool) :
    ∀ (fuel i : Nat), (∀ j, i ≤ j → j ≤ i + fuel → stampAt j = false) →
      pollFrom stampAt fuel i = none
  | 0, i, h => by
    unfold pollFrom
    simp [h i le_rfl (Nat.le_add_right i 0)]
  | fuel + 1, i, h => by
    unfold pollFrom
    rw [h i le_rfl (Nat.le_add_right i _)]
    simpa using pollFrom_eq_none stampAt fuel (i + 1)
      (fun j h1 h2 => h j (by omega) (by omega))

/-- If the stamp first becomes visible at check `k` and `k` is within
reach, the poll returns `k`. -/
theorem pollFrom_eq_some (stampAt : Nat → Bool) :
    ∀ (fuel i k : Nat), i ≤ k → k ≤ i + fuel → stampAt k = true →
      (∀ j, i ≤ j → j < k → stampAt j = false) →
      pollFrom stampAt fuel i = some k
  | 0, i, k, hik, hki, hk, _ => by
    have : k = i := by omega
    subst this
    unfold pollFrom
    simp [hk]
  | fuel + 1, i, k, hik, hki, hk, hmin => by
    unfold pollFrom
    rcases Nat.eq_or_lt_of_le hik with h | h
    · subst h
      simp [hk]
    · rw [hmin i le_rfl h]
      simpa using pollFrom_eq_some stampAt fuel (i + 1) k
        (by omega) (by omega) hk (fun j h1 h2 => hmin j (by omega) h2)

end PollLemmas

section TracePreservation

/-- The step `afterInit` never touches the creation, prompting, substitution or
sleep records of the trace. -/
theorem afterInit_preserves (container : String) (command : List String)
    (es fb : Bool) (env : Env) (t : Trace) :
    ((afterInit container command es fb env t).2).createCalls =
        t.createCalls ∧
    ((afterInit container command es fb env t).2).prompted = t.prompted ∧
    ((afterInit container command es fb env t).2).substitutedTo =
        t.substitutedTo ∧
    ((afterInit container command es fb env t).2).sleeps = t.sleeps := by
  unfold afterInit
  repeat' split
  all_goals simp

set_option linter.unusedTactic false in
/-- The step `postExistence` never touches the creation, prompting or
substitution records of the trace. -/
theorem postExistence_preserves (container : String)
    (command : List String) (es fb : Bool) (env : Env) (t : Trace) :
    ((postExistence container command es fb env t).2).createCalls =
        t.createCalls ∧
    ((postExistence container command es fb env t).2).prompted =
        t.prompted ∧
    ((postExistence container command es fb env t).2).substitutedTo =
        t.substitutedTo := by
  unfold postExistence
  refine ⟨?_, ?_, ?_⟩ <;>
    (repeat' split) <;>
    try (simp; done)
  all_goals simp only []
  all_goals split
  all_goals
    first
      | (simp; done)
      | exact (afterInit_preserves _ _ _ _ _ _).1
      | exact (afterInit_preserves _ _ _ _ _ _).2.1
      | exact (afterInit_preserves _ _ _ _ _ _).2.2.1

end TracePreservation

/-- Claim C3, as stated, is false: with the wrapped subprocess exiting
with code 1 (neither 0, 125, 126 nor 127), the entry attempt returns
`nil` — no error at all — so the core reports success (exit status 0)
to its caller instead of a non-zero exit status.  The `default` arm of
the switch at lines 363-364 sets `err = nil` and discards `exitCode`. -/
theorem claim_C3_counterexample :
    (enterContainer "fedora-toolbox-33" true "fedora-toolbox:33" "33"
      ["/bin/zsh", "-l"] false true false envExit1).1 = .ok ∧
    envExit1.execExitCode = 1 ∧
    ∀ e : EnterError,
      (enterContainer "fedora-toolbox-33" true "fedora-toolbox:33" "33"
        ["/bin/zsh", "-l"] false true false envExit1).1 ≠ .err e := by
  refine ⟨rfl, rfl, fun e h => ?_⟩
  rw [show (enterContainer "fedora-toolbox-33" true "fedora-toolbox:33"
      "33" ["/bin/zsh", "-l"] false true false envExit1).1 =
      EnterResult.ok from rfl] at h
  exact EnterResult.noConfusion h

/-- Claim C3 (amended): for every exit code of the wrapped
`podman exec` subprocess other than 0, 125, 126 and 127, the switch
sets the error to `nil`: the entry attempt emits no error message and
treats the run as a success of the entry flow, discarding the wrapped
exit code rather than forwarding it, so the core reports exit status
zero to its caller. -/
theorem claim_C3 (exitCode : Nat) (execErr : Bool)
    (container command0 workdir : String) (workDirPresent : Bool)
    (h0 : exitCode ≠ 0) (h125 : exitCode ≠ 125) (h126 : exitCode ≠ 126)
    (h127 : exitCode ≠ 127) :
    classifyExitCode exitCode execErr container command0 workdir
      workDirPresent = .ok := by
  simp [classifyExitCode, h0, h125, h126, h127]

/-- Witness for the amended claim C3 at exit code 1. -/
theorem claim_C3_witness :
    classifyExitCode 1 true "fedora-toolbox-33" "/bin/zsh" "/home/alice"
      true = .ok :=
  claim_C3 1 true "fedora-toolbox-33" "/bin/zsh" "/home/alice" true
    (by decide) (by decide) (by decide) (by decide)

/-- Claim C4: the exit-code classifier (the switch at lines 348-365)
maps 125 to the engine-invocation failure, 126 to the
command-invocation failure, and on 127 probes whether the working
directory exists inside the container: if absent the result is the
directory-not-found error, otherwise the command-not-found error. -/
theorem claim_C4 : ∀ (execErr : Bool)
    (container command0 workdir : String),
    (∀ workDirPresent,
      classifyExitCode 125 execErr container command0 workdir
        workDirPresent = .err (.engineInvocationFailed container)) ∧
    (∀ workDirPresent,
      classifyExitCode 126 execErr container command0 workdir
        workDirPresent = .err (.commandInvocationFailed command0 container)) ∧
    classifyExitCode 127 execErr container command0 workdir false =
      .err (.workDirNotFound workdir container) ∧
    classifyExitCode 127 execErr container command0 workdir true =
      .err (.execCommandNotFound command0 container) := by
  intro e c c0 w
  exact ⟨fun _ => rfl, fun _ => rfl, rfl, rfl⟩

/-- Claim C5: if the wrapped subprocess exits 0 while the invocation
call simultaneously reported an error, the program panics instead of
reporting success; and whenever it does not panic, exit code 0 is
reported as success with no error. -/
theorem claim_C5 : ∀ (container command0 workdir : String)
    (workDirPresent : Bool),
    classifyExitCode 0 true container command0 workdir workDirPresent =
      .panicked
        "unexpected error: \x27podman exec\x27 finished successfully" ∧
    classifyExitCode 0 false container command0 workdir workDirPresent =
      .ok := by
  intro c c0 w p
  exact ⟨rfl, rfl⟩

/-- Claim C9: the interactive-exec argument vector is assembled in
exactly the order the spec lists — log-level flag, exec subcommand,
detach-keys-disabling flag if and only if the engine version check for
the minimum supported version "1.8.1" succeeds, interactive and TTY
flags, target user, working directory, environment-preservation
options, container name, the capability-stripping `capsh` wrapper
ending in the minimal `/bin/sh` indirection, and the user command.  The
builder is a total function (no failure mode), and whenever the entry
flow reaches the exec call the recorded argument vector is exactly the
output of the builder for the engine-version-gated flag. -/
theorem claim_C9 :
    (∀ (container : String) (command : List String) (logLevel : String)
      (supportsDetachKeys : Bool) (username workingDirectory : String)
      (envOptions : List String),
      buildExecArgs container command logLevel supportsDetachKeys
          username workingDirectory envOptions =
        execArgsSpec container command logLevel supportsDetachKeys
          username workingDirectory envOptions) ∧
    (∀ (env : Env) (container : String) (command : List String)
      (es fb : Bool) (t : Trace),
      env.commandPresentIn container (command.headD "") = true →
      ((afterInit container command es fb env t).2).execArgs =
        some (buildExecArgs container command env.logLevel
          (env.checkVersion "1.8.1") env.username env.workingDirectory
          env.envOptions)) := by
  constructor
  · intro c cmd ll sdk u w eo
    cases sdk <;> simp [buildExecArgs, execArgsSpec]
  · intro env c cmd es fb t h
    unfold afterInit
    rw [if_pos h]

/-- Witness for claim C9: a concrete run that reaches the exec call and
records the output of the builder. -/
theorem claim_C9_witness :
    ((afterInit "fedora-toolbox-33" ["/bin/zsh", "-l"] true true envHappy
        Trace.initial).2).execArgs =
      some (buildExecArgs "fedora-toolbox-33" ["/bin/zsh", "-l"]
        envHappy.logLevel (envHappy.checkVersion "1.8.1")
        envHappy.username envHappy.workingDirectory envHappy.envOptions) :=
  claim_C9.2 envHappy "fedora-toolbox-33" ["/bin/zsh", "-l"] true true
    Trace.initial rfl

/-- Claim C10: in permissive mode, when the requested container does
not exist and the enumeration of existing containers itself fails, the
attempt reports the very `ContainerNotFound` error that pedantic mode
reports for a genuinely missing container (the
`utils.CreateErrorContainerNotFound` one), rather than surfacing the
enumeration failure; the trace stays initial, so no create, substitute
or prompt branch is reached. -/
theorem claim_C10 (container image release : String)
    (command : List String) (dc es fb : Bool) (env : Env)
    (himg : image ≠ "") (hrel : release ≠ "")
    (hex : env.requestedExists = false)
    (hlist : env.listContainersResult = none) :
    enterContainer container dc image release command es fb false env =
      (.err (.containerNotFound container), Trace.initial) ∧
    (enterContainer container dc image release command es fb true
        env).1 = .err (.containerNotFound container) := by
  constructor
  · simp [enterContainer, existencePhase, hex, hlist, himg, hrel]
  · simp [enterContainer, existencePhase, hex]

/-- Witness for claim C10: a concrete environment where the requested
container is missing and `listContainers` fails. -/
theorem claim_C10_witness :
    enterContainer "fedora-toolbox-33" true "fedora-toolbox:33" "33"
      ["/bin/zsh", "-l"] false true false
      { envHappy with requestedExists := false,
                      listContainersResult := none } =
      (.err (.containerNotFound "fedora-toolbox-33"), Trace.initial) :=
  (claim_C10 "fedora-toolbox-33" "fedora-toolbox:33" "33"
    ["/bin/zsh", "-l"] true false true
    { envHappy with requestedExists := false,
                    listContainersResult := none }
    (by decide) (by decide) rfl rfl).1

/-- Claim C7: in permissive mode, when the requested container does not
exist and zero containers exist, the assume-yes flag makes the attempt
invoke container creation exactly once with the resolved
(container, image, release) identity without prompting, and entry then
proceeds with the created container; whereas a prompted-and-declined
creation makes the attempt terminate with no error (`nil`), only the
informational message, and no create call. -/
theorem claim_C7 (container image release : String)
    (command : List String) (dc es fb : Bool) (env : Env)
    (himg : image ≠ "") (hrel : release ≠ "")
    (hex : env.requestedExists = false)
    (hlist : env.listContainersResult = some []) :
    (env.assumeYes = true →
      ((enterContainer container dc image release command es fb false
          env).2).createCalls = [(container, image, release)] ∧
      ((enterContainer container dc image release command es fb false
          env).2).prompted = false ∧
      (env.createSucceeds = true →
        enterContainer container dc image release command es fb false
            env =
          postExistence container command es fb env
            { Trace.initial with
                createCalls := [(container, image, release)] })) ∧
    (env.assumeYes = false → env.confirmCreate = false →
      enterContainer container dc image release command es fb false
          env =
        (.ok, { Trace.initial with prompted := true,
                                   infoDeclineShown := true })) := by
  refine ⟨fun hy => ?_, fun hn hc => ?_⟩
  · cases hcs : env.createSucceeds
    · have he : enterContainer container dc image release command es fb
          false env =
          (.err .createContainerFailed,
            { Trace.initial with
                createCalls := [(container, image, release)] }) := by
        simp [enterContainer, existencePhase, hex, hlist, hy, hcs,
          himg, hrel, Trace.initial]
      exact ⟨by simp [he, Trace.initial], by simp [he, Trace.initial],
        fun hcontra => absurd hcontra (by simp [hcs])⟩
    · have he : enterContainer container dc image release command es fb
          false env =
          postExistence container command es fb env
            { Trace.initial with
                createCalls := [(container, image, release)] } := by
        simp [enterContainer, existencePhase, hex, hlist, hy, hcs,
          himg, hrel, Trace.initial]
      refine ⟨?_, ?_, fun _ => he⟩
      · rw [he]
        exact (postExistence_preserves _ _ _ _ _ _).1
      · rw [he]
        exact (postExistence_preserves _ _ _ _ _ _).2.1
  · simp [enterContainer, existencePhase, hex, hlist, hn, hc, himg,
      hrel]

/-- Witness for claim C7: zero containers, assume-yes active, creation
succeeds, and the created container is entered successfully. -/
theorem claim_C7_witness :
    ((enterContainer "fedora-toolbox-33" true "fedora-toolbox:33" "33"
        ["/bin/zsh", "-l"] false true false
        { envHappy with requestedExists := false,
                        assumeYes := true }).2).createCalls =
      [("fedora-toolbox-33", "fedora-toolbox:33", "33")] :=
  ((claim_C7 "fedora-toolbox-33" "fedora-toolbox:33" "33"
    ["/bin/zsh", "-l"] true false true
    { envHappy with requestedExists := false, assumeYes := true }
    (by decide) (by decide) rfl rfl).1 rfl).1

/-- Claim C1: in permissive mode, when the requested container does not
exist and enumeration succeeds: if exactly one container `c` exists and
the request was a default entry (`defaultContainer`, i.e. the caller
supplied neither a container name nor a release), `c` is substituted —
the substitution diagnostic is recorded, no create call is made, and
entry proceeds with `c`; if exactly one container exists but the caller
explicitly asked for a missing container (`defaultContainer = false`),
or two or more containers exist, the attempt fails with the
container-not-found error and the trace stays initial (no substitution,
no creation). -/
theorem claim_C1 (container image release : String)
    (command : List String) (es fb : Bool) (env : Env)
    (cs : List String)
    (himg : image ≠ "") (hrel : release ≠ "")
    (hex : env.requestedExists = false)
    (hlist : env.listContainersResult = some cs) :
    (∀ c, cs = [c] →
      enterContainer container true image release command es fb false
          env =
        postExistence c command es fb env
          { Trace.initial with substitutedTo := some c } ∧
      ((enterContainer container true image release command es fb false
          env).2).substitutedTo = some c ∧
      ((enterContainer container true image release command es fb false
          env).2).createCalls = []) ∧
    (cs.length = 1 →
      enterContainer container false image release command es fb false
          env =
        (.err (.containerNotFoundDisambiguate container),
          Trace.initial)) ∧
    (2 ≤ cs.length → ∀ dc,
      enterContainer container dc image release command es fb false
          env =
        (.err (.containerNotFoundDisambiguate container),
          Trace.initial)) := by
  refine ⟨fun c hc => ?_, fun h1 => ?_, fun h2 dc => ?_⟩
  · subst hc
    have he : enterContainer container true image release command es fb
        false env =
        postExistence c command es fb env
          { Trace.initial with substitutedTo := some c } := by
      simp [enterContainer, existencePhase, hex, hlist, himg, hrel,
        Trace.initial]
    refine ⟨he, ?_, ?_⟩
    · rw [he]
      exact (postExistence_preserves _ _ _ _ _ _).2.2
    · rw [he]
      exact (postExistence_preserves _ _ _ _ _ _).1
  · have h0 : cs.length ≠ 0 := by omega
    simp [enterContainer, existencePhase, hex, hlist, himg, hrel, h0,
      h1]
  · have h0 : cs.length ≠ 0 := by omega
    have h1 : cs.length ≠ 1 := by omega
    simp [enterContainer, existencePhase, hex, hlist, himg, hrel, h0,
      h1]

/-- Witness for claim C1: the single existing container `dev` is
substituted for the missing default request and entered. -/
theorem claim_C1_witness :
    ((enterContainer "fedora-toolbox-33" true "fedora-toolbox:33" "33"
        ["/bin/zsh", "-l"] false true false
        { envHappy with requestedExists := false,
                        listContainersResult := some ["dev"]
        }).2).substitutedTo = some "dev" :=
  (((claim_C1 "fedora-toolbox-33" "fedora-toolbox:33" "33"
    ["/bin/zsh", "-l"] false true
    { envHappy with requestedExists := false,
                    listContainersResult := some ["dev"] }
    ["dev"] (by decide) (by decide) rfl rfl).1) "dev" rfl).2.1

/-- Claim C6: after the container starts, if the fetched entry-point
process name is not the sentinel "toolbox", entry fails with the
too-old/recreate error — regardless of the readiness-marker state
(`env.pathExists` is arbitrary) and before any readiness polling (the
final trace is initial, so zero sleeps happened); if the name matches
but the entry-point PID is not positive, entry fails with the
invalid-entry-point error. -/
theorem claim_C6 (container image release : String)
    (command : List String) (dc es fb : Bool) (env : Env)
    (name : String) (p : Int)
    (himg : image ≠ "") (hrel : release ≠ "")
    (hex : env.requestedExists = true)
    (hfl : env.flatpakOk = true) (hst : env.startOk = true)
    (hep : env.entryPointResult = some (name, p)) :
    (name ≠ "toolbox" →
      enterContainer container dc image release command es fb false
          env =
        (.err (.containerTooOld container), Trace.initial)) ∧
    (name = "toolbox" → p ≤ 0 →
      enterContainer container dc image release command es fb false
          env =
        (.err (.invalidEntryPointPID container), Trace.initial)) := by
  constructor
  · intro hname
    simp [enterContainer, existencePhase, postExistence, hex, hfl, hst,
      hep, himg, hrel, hname]
  · intro hname hpid
    subst hname
    simp [enterContainer, existencePhase, postExistence, hex, hfl, hst,
      hep, himg, hrel, hpid]

/-- Witness for claim C6: an entry point named "init" is rejected as
too old even though the readiness marker is present throughout. -/
theorem claim_C6_witness :
    enterContainer "fedora-toolbox-33" true "fedora-toolbox:33" "33"
      ["/bin/zsh", "-l"] false true false
      { envHappy with entryPointResult := some ("init", 42) } =
      (.err (.containerTooOld "fedora-toolbox-33"), Trace.initial) :=
  (claim_C6 "fedora-toolbox-33" "fedora-toolbox:33" "33"
    ["/bin/zsh", "-l"] true false true
    { envHappy with entryPointResult := some ("init", 42) }
    "init" 42 (by decide) (by decide) rfl rfl rfl rfl).1 (by decide)

/-- Claim C2: once the entry point is validated, the readiness marker
`<runtimeDir>/container-initialized-<pid>` is polled with a ceiling of
25 timed attempts: the marker is checked immediately and then once per
one-second sleep; if it is absent at every reachable check (indices 0
through 25) the attempt fails with the initialization-timeout error
after 25 sleeps, and if it first appears at check `k` (k ≤ 25) entry
proceeds to the exec stage after exactly `k` one-second sleeps and no
more. -/
theorem claim_C2 (container image release dir : String)
    (command : List String) (dc es fb : Bool) (env : Env) (p : Int)
    (himg : image ≠ "") (hrel : release ≠ "")
    (hex : env.requestedExists = true)
    (hfl : env.flatpakOk = true) (hst : env.startOk = true)
    (hep : env.entryPointResult = some ("toolbox", p)) (hp : 0 < p)
    (hrd : env.runtimeDir = some dir) :
    ((∀ i, i ≤ 25 →
        env.pathExists i
          (dir ++ "/container-initialized-" ++ toString p) = false) →
      enterContainer container dc image release command es fb false
          env =
        (.err (.initializationTimeout container),
          { Trace.initial with sleeps := 25 })) ∧
    (∀ k, k ≤ 25 →
      env.pathExists k
        (dir ++ "/container-initialized-" ++ toString p) = true →
      (∀ j, j < k →
        env.pathExists j
          (dir ++ "/container-initialized-" ++ toString p) = false) →
      enterContainer container dc image release command es fb false
          env =
        afterInit container command es fb env
          { Trace.initial with sleeps := k } ∧
      ((enterContainer container dc image release command es fb false
          env).2).sleeps = k) := by
  have hpid : ¬p ≤ 0 := by omega
  constructor
  · intro habs
    have hpoll : pollFrom
        (fun i => env.pathExists i
          (dir ++ "/container-initialized-" ++ toString p)) 25 0 =
        none :=
      pollFrom_eq_none _ 25 0 (fun j _ h2 => habs j (by omega))
    simp [enterContainer, existencePhase, postExistence, hex, hfl, hst,
      hep, hrd, himg, hrel, hpid, hpoll]
  · intro k hk hstamp hmin
    have hpoll : pollFrom
        (fun i => env.pathExists i
          (dir ++ "/container-initialized-" ++ toString p)) 25 0 =
        some k :=
      pollFrom_eq_some _ 25 0 k (Nat.zero_le k) (by omega) hstamp
        (fun j _ h2 => hmin j h2)
    have he : enterContainer container dc image release command es fb
        false env =
        afterInit container command es fb env
          { Trace.initial with sleeps := k } := by
      simp [enterContainer, existencePhase, postExistence, hex, hfl,
        hst, hep, hrd, himg, hrel, hpid, hpoll, Trace.initial]
    refine ⟨he, ?_⟩
    rw [he]
    exact (afterInit_preserves _ _ _ _ _ _).2.2.2

/-- Witness for claim C2: the readiness marker appears at the third
one-second poll, and entry proceeds after exactly three sleeps. -/
theorem claim_C2_witness :
    ((enterContainer "fedora-toolbox-33" true "fedora-toolbox:33" "33"
        ["/bin/zsh", "-l"] false true false
        { envHappy with
            pathExists := fun i _ => decide (3 ≤ i) }).2).sleeps = 3 :=
  ((claim_C2 "fedora-toolbox-33" "fedora-toolbox:33" "33"
    "/run/user/1000/toolbox" ["/bin/zsh", "-l"] true false true
    { envHappy with pathExists := fun i _ => decide (3 ≤ i) }
    42 (by decide) (by decide) rfl rfl rfl rfl (by decide) rfl).2
    3 (by decide) (by decide)
    (fun j hj => by
      simp only [decide_eq_false_iff_not]
      omega)).2

/-- Claim C8 (amended): for every supplied non-empty container name
(the positional argument taking precedence over the `--container`
option) that does not match the naming grammar, enter fails with the
invalid-name error whose message includes the grammar (the
container-name regular expression), and no container-engine call is
made before that failure (`enterContainer` is never reached, so the
trace component is `none`).  An empty positional argument is treated by
the code as if no name had been supplied and is never validated. -/
theorem claim_C8 (args : List String)
    (flagContainer flagRelease : String) (cenv : CmdEnv)
    (name : String)
    (hni : cenv.insideContainer = false)
    (hname : name ≠ "")
    (hinv : cenv.isContainerNameValid name = false) :
    ((∃ rest, args = name :: rest) →
      enterCmd args flagContainer flagRelease cenv =
        (.invalidName (invalidNameMsg "CONTAINER"
          cenv.containerNameRegexp cenv.executableBase), none)) ∧
    (args = [] → flagContainer = name →
      enterCmd args flagContainer flagRelease cenv =
        (.invalidName (invalidNameMsg "--container"
          cenv.containerNameRegexp cenv.executableBase), none)) ∧
    (∀ containerArg exe : String, ∃ pre post : String,
      invalidNameMsg containerArg cenv.containerNameRegexp exe =
        pre ++ cenv.containerNameRegexp ++ post) := by
  refine ⟨?_, ?_, fun containerArg exe => ?_⟩
  · rintro ⟨rest, rfl⟩
    simp [enterCmd, hni, hname, hinv]
  · rintro rfl rfl
    simp [enterCmd, hni, hname, hinv]
  · refine ⟨"invalid argument for \x27" ++ containerArg ++ "\x27\n" ++
      "Container names must match \x27",
      "\x27\n" ++ "Run \x27" ++ exe ++ " --help\x27 for usage.", ?_⟩
    simp [invalidNameMsg, String.append_assoc]

/-- Claim C8, quantified over all supplied names as stated, is false at
the empty positional argument: `""` does not match the naming grammar
(the validity oracle rejects it, as does the real regular expression),
yet enter does not fail with the invalid-name error — an empty name
skips validation entirely, the default container is resolved, the
engine is consulted and the entry succeeds. -/
theorem claim_C8_counterexample :
    cenvC8.isContainerNameValid "" = false ∧
    (enterCmd [""] "" "" cenvC8).1 = .fromEnter .ok ∧
    ((enterCmd [""] "" "" cenvC8).2).isSome = true :=
  ⟨rfl, rfl, rfl⟩

/-- Witness for the amended claim C8: the positional name "bad name"
fails validation and enter stops with the invalid-name error, the
grammar in the message and no engine call. -/
theorem claim_C8_witness :
    enterCmd ["bad name"] "" "" cenvC8 =
      (.invalidName (invalidNameMsg "CONTAINER"
        cenvC8.containerNameRegexp cenvC8.executableBase), none) :=
  (claim_C8 ["bad name"] "" "" cenvC8 "bad name" rfl (by decide)
    rfl).1 ⟨[], rfl⟩

end ToolboxEnter
